import Mathlib

set_option maxHeartbeats 1000000
set_option linter.unusedVariables false

/-
Rational arithmetic must evaluate inside `decide`/`rfl` proofs on concrete
inputs; Batteries marks these operations irreducible for performance only.
-/
set_option allowUnsafeReducibility true
attribute [semireducible] Rat.mul Rat.add Rat.sub Rat.div Rat.inv Rat.neg Rat.ofScientific

/-
Shallow embedding of the scoring / feature-derivation core of the
productivity-tracking backend: the functions of
`src/services/ai_service.py` (rule-based scorer) and
`src/services/ml_score_service.py` (feature extractor and learned-score
adapter).  Machine reals are modelled as exact rationals, Python
`datetime` values as wall-clock seconds plus an optional UTC offset, and
Python exceptions (the `TypeError` raised by datetime arithmetic that
mixes timezone-aware and naive values) as an `Except` error.
-/

namespace WatnowBackend

/-- Python `TypeError`, as raised by datetime arithmetic or comparison that
mixes timezone-aware and timezone-naive values. -/
inductive PyError where
  | typeError
  deriving DecidableEq

/-- A Python `datetime`: `sec` is the wall-clock time displayed by the value,
in seconds since the epoch, and `tz` is its UTC offset in seconds, with
`none` modelling a naive datetime (no `tzinfo`). -/
structure PyDateTime where
  sec : ℚ
  tz : Option ℤ
  deriving DecidableEq

namespace PyDateTime

/-- The `dt.hour` attribute: wall-clock hour of day, in `0..23`. -/
def hour (d : PyDateTime) : ℤ := ⌊d.sec / 3600⌋ % 24

/-- The instant a datetime denotes, used as the comparison/sort key: UTC
instant for aware values, wall clock for naive ones. -/
def key (d : PyDateTime) : ℚ := d.sec - ((d.tz.getD 0 : ℤ) : ℚ)

/-- Python `(a - b).total_seconds()`: defined when both operands are naive or
both are aware, `TypeError` otherwise. -/
def pySub (a b : PyDateTime) : Except PyError ℚ :=
  match a.tz, b.tz with
  | none, none => .ok (a.sec - b.sec)
  | some ta, some tb => .ok ((a.sec - (ta : ℚ)) - (b.sec - (tb : ℚ)))
  | _, _ => .error .typeError

/-- Python `a < b` on datetimes: `TypeError` when awareness is mixed. -/
def pyLt (a b : PyDateTime) : Except PyError Bool :=
  match a.tz, b.tz with
  | none, none => .ok (decide (a.sec < b.sec))
  | some ta, some tb => .ok (decide (a.sec - (ta : ℚ) < b.sec - (tb : ℚ)))
  | _, _ => .error .typeError

end PyDateTime

/-- An ISO-8601 datetime string, represented by what
`datetime.fromisoformat` would make of it: `valid` is whether parsing
succeeds, `sec`/`offset` the wall clock and explicit UTC offset it denotes,
and `endsZ` whether the string ends with the suffix `Z` (which the services
replace by `+00:00` before parsing).  A payload value that is not a string at
all is modelled with `valid := false` (the `except` clause swallows the
resulting error). -/
structure IsoStr where
  valid : Bool
  sec : ℚ
  offset : Option ℤ
  endsZ : Bool
  deriving DecidableEq

/-- `datetime.fromisoformat` on the modelled string. -/
def fromisoformat (s : IsoStr) : Option PyDateTime :=
  if s.valid then some ⟨s.sec, s.offset⟩ else none

/-- `_parse_iso` — defined identically in `ai_service.py` and
`ml_score_service.py`: a trailing `Z` is rewritten to the explicit offset
`+00:00`, then `fromisoformat` is tried, with any failure mapped to `None`. -/
def _parse_iso (s : IsoStr) : Option PyDateTime :=
  if s.endsZ then fromisoformat { s with offset := some 0, endsZ := false }
  else fromisoformat s

/-- The JSON `data` column of an event log row: either SQL `NULL` / Python
`None`, a JSON value that is not a dict (with its Python truthiness), or a
dict with its truthiness and the value found under the key `"time"` (with
`none` covering a missing, `None`, or falsy value). -/
inductive PyJson where
  | pyNone : PyJson
  | nonDict (truthy : Bool) : PyJson
  | dict (nonempty : Bool) (time : Option IsoStr) : PyJson
  deriving DecidableEq

namespace PyJson

/-- Python truthiness of the `data` value. -/
def truthy : PyJson → Bool
  | .pyNone => false
  | .nonDict b => b
  | .dict ne _ => ne

/-- Python `isinstance(data, dict)`. -/
def isDict : PyJson → Bool
  | .dict _ _ => true
  | _ => false

/-- Python `data.get("time")`, guarded by the truthiness check the services
apply to it. -/
def getTime : PyJson → Option IsoStr
  | .dict _ t => t
  | _ => none

end PyJson

/-- An `EventLog` row, restricted to the columns the scoring core reads.
`task_id` is `none` when the column is `NULL` (Python-falsy); otherwise it
holds the `str()` image of the UUID. -/
structure EventLog where
  task_id : Option String
  event_type : String
  data : PyJson
  timestamp : PyDateTime
  deriving DecidableEq

/-- A `Task` row, restricted to the one column the scoring core reads. -/
structure Task where
  status : String
  deriving DecidableEq

/-- A `User` row; the scoring core reads none of its columns. -/
structure User where
  deriving DecidableEq

/- The `EventType` enumeration of `schemas/event_log.py` (string values). -/
namespace EventType

def DAILY_CHECK_IN : String := "daily_check_in"

def WAKE_TIME_LOGGED : String := "wake_time_logged"

def TASK_STARTED : String := "task_started"

def TASK_COMPLETED : String := "task_completed"

def TASK_CREATED : String := "task_created"

def SCREEN_TRANSITION : String := "screen_transition"

def BUTTON_CLICKED : String := "button_clicked"

end EventType

/-- `ml_score_service._to_naive_utc`: rebase an aware datetime to UTC and
drop its offset; pass naive datetimes (and `None`) through unchanged. -/
def _to_naive_utc : Option PyDateTime → Option PyDateTime
  | none => none
  | some d =>
    match d.tz with
    | some o => some ⟨d.sec - (o : ℚ), none⟩
    | none => some d

/-- Number of tasks with status `"completed"` (`sum(1 for t in tasks if
t.status == "completed")`, common to both services). -/
def completedCount (tasks : List Task) : ℕ :=
  tasks.countP (fun t => t.status == "completed")

/-- Number of tasks with status `"missed"`. -/
def overdueCount (tasks : List Task) : ℕ :=
  tasks.countP (fun t => t.status == "missed")

/-- The completion-rate formula shared by both services:
`completed / (completed + overdue)` when the denominator is positive,
`0.0` otherwise. -/
def completion_rate_calc (completed overdue : ℕ) : ℚ :=
  if 0 < completed + overdue then (completed : ℚ) / ((completed : ℚ) + (overdue : ℚ))
  else 0

/-- Python `int(x)` on a float: truncation toward zero. -/
def pyInt (x : ℚ) : ℤ :=
  if 0 ≤ x then ⌊x⌋ else -⌊-x⌋

instance {ε α : Type} [DecidableEq ε] [DecidableEq α] : DecidableEq (Except ε α) := fun x y =>
  match x, y with
  | .error a, .error b =>
    if h : a = b then .isTrue (by rw [h]) else .isFalse (by intro hc; cases hc; exact h rfl)
  | .error _, .ok _ => .isFalse (by intro hc; cases hc)
  | .ok _, .error _ => .isFalse (by intro hc; cases hc)
  | .ok a, .ok b =>
    if h : a = b then .isTrue (by rw [h]) else .isFalse (by intro hc; cases hc; exact h rfl)

/-
Embedding of `src/services/ai_service.py` (rule-based scorer).  Because the
functions subtract and compare raw event timestamps without normalizing
awareness, they can raise `TypeError`; they are therefore embedded in
`Except PyError`.
-/
namespace AIService

/-- `_extract_daily_check_in`: 1 if any log has the daily-check-in kind. -/
def _extract_daily_check_in (logs : List EventLog) : ℕ :=
  if logs.any (fun l => l.event_type == EventType.DAILY_CHECK_IN) then 1 else 0

/-- Python dict assignment `started[tid] = v`. -/
def dictSet (m : String → Option PyDateTime) (k : String) (v : PyDateTime) :
    String → Option PyDateTime :=
  fun x => if x = k then some v else m x

/-- Python `started.pop(tid)` (the removal part; the popped value is read
from the map before removal). -/
def dictPop (m : String → Option PyDateTime) (k : String) : String → Option PyDateTime :=
  fun x => if x = k then none else m x

/-- The loop body of `_pair_task_sessions`: walk the logs in supplied order,
tracking the last `task_started` timestamp per task id, and emit a session
when a `task_completed` for a tracked id strictly follows its start.  The
comparison `e > s` is Python datetime comparison and can raise. -/
def pairLoop (started : String → Option PyDateTime)
    (sessions : List (PyDateTime × PyDateTime)) :
    List EventLog → Except PyError (List (PyDateTime × PyDateTime))
  | [] => .ok sessions
  | l :: rest =>
    match l.task_id with
    | none => pairLoop started sessions rest
    | some tid =>
      let started1 :=
        if l.event_type == EventType.TASK_STARTED then dictSet started tid l.timestamp
        else started
      if l.event_type == EventType.TASK_COMPLETED then
        match started1 tid with
        | some s =>
          match PyDateTime.pyLt s l.timestamp with
          | .error e => .error e
          | .ok gt =>
            if gt then pairLoop (dictPop started1 tid) (sessions ++ [(s, l.timestamp)]) rest
            else pairLoop (dictPop started1 tid) sessions rest
        | none => pairLoop started1 sessions rest
      else pairLoop started1 sessions rest

/-- `_pair_task_sessions`: pair `task_started` with the next `task_completed`
carrying the same task id, in the order the logs are supplied. -/
def _pair_task_sessions (logs : List EventLog) :
    Except PyError (List (PyDateTime × PyDateTime)) :=
  pairLoop (fun _ => none) [] logs

/-- Python `ts.sort()` on a list of datetimes: succeeds (stably, by the
denoted instant) when the list does not mix aware and naive values, raises
`TypeError` otherwise. -/
def pySortTimestamps (ts : List PyDateTime) : Except PyError (List PyDateTime) :=
  if ts.all (fun d => d.tz.isNone) || ts.all (fun d => d.tz.isSome) then
    .ok (List.insertionSort (fun a b => PyDateTime.key a ≤ PyDateTime.key b) ts)
  else .error .typeError

/-- The loop of `_activity_sessions_from_timestamps`: starting from the open
session `[cur_start, cur_end]`, extend it with each next timestamp unless the
gap reaches `IDLE_GAP_MINUTES` (15), in which case the session closes and a
new one opens; the final open session is appended at the end. -/
def activityLoop (cur_start cur_end : PyDateTime) :
    List PyDateTime → Except PyError (List (PyDateTime × PyDateTime))
  | [] => .ok [(cur_start, cur_end)]
  | t :: rest =>
    match PyDateTime.pySub t cur_end with
    | .error e => .error e
    | .ok secs =>
      if secs / 60 ≥ 15 then
        match activityLoop t t rest with
        | .error e => .error e
        | .ok tail => .ok ((cur_start, cur_end) :: tail)
      else activityLoop cur_start t rest

/-- `_activity_sessions_from_timestamps`: sort all event timestamps and split
them into sessions on idle gaps of at least 15 minutes. -/
def _activity_sessions_from_timestamps (logs : List EventLog) :
    Except PyError (List (PyDateTime × PyDateTime)) :=
  match logs with
  | [] => .ok []
  | _ =>
    match pySortTimestamps (logs.map (fun l => l.timestamp)) with
    | .error e => .error e
    | .ok [] => .ok []
    | .ok (t0 :: rest) => activityLoop t0 t0 rest

/-- Session durations in minutes: `(e - s).total_seconds() / 60` for each
session, via Python datetime subtraction. -/
def sessionMinutes : List (PyDateTime × PyDateTime) → Except PyError (List ℚ)
  | [] => .ok []
  | (s, e) :: rest =>
    match PyDateTime.pySub e s with
    | .error er => .error er
    | .ok secs =>
      match sessionMinutes rest with
      | .error er => .error er
      | .ok ds => .ok (secs / 60 :: ds)

/-- The tail of `_calc_session_metrics`: `(0, 0.0)` when no durations
remain, else the count and arithmetic mean of the durations. -/
def metricsOf (durations : List ℚ) : ℕ × ℚ :=
  if durations = [] then (0, 0)
  else (durations.length, durations.sum / (durations.length : ℚ))

/-- `_calc_session_metrics`: durations of paired sessions; if fewer than one
paired duration exists, durations of idle-gap activity sessions of at least
one minute are appended; the result is `metricsOf` of the duration list. -/
def _calc_session_metrics (logs : List EventLog) : Except PyError (ℕ × ℚ) :=
  match _pair_task_sessions logs with
  | .error e => .error e
  | .ok paired =>
    match sessionMinutes paired with
    | .error e => .error e
    | .ok durations0 =>
      if durations0.length < 1 then
        match _activity_sessions_from_timestamps logs with
        | .error e => .error e
        | .ok act =>
          match sessionMinutes act with
          | .error e => .error e
          | .ok actMins => .ok (metricsOf (durations0 ++ actMins.filter (fun d => d ≥ 1)))
      else .ok (metricsOf durations0)

/-- The `CONSISTENCY` formula of `calculate_scores`. -/
def consistencyScore (completed daily_check_in streak : ℕ) (completion_rate : ℚ) : ℚ :=
  40 * min ((completed : ℚ) / 3) 1 + 30 * (daily_check_in : ℚ)
    + 20 * min ((streak : ℚ) / 7) 1 + 10 * completion_rate

/-- The `FOCUS` formula of `calculate_scores`, including the noise penalty
and the floor at 0. -/
def focusScore (session_count : ℕ) (avg_session_min : ℚ) (noise : ℕ) : ℚ :=
  max (60 * min ((session_count : ℚ) / 3) 1 + 40 * min (avg_session_min / 30) 1
    - min ((noise : ℚ) / 50) 1 * 15) 0

/-- The noise signal: screen-transition count plus button-clicked count. -/
def noiseCount (logs : List EventLog) : ℕ :=
  logs.countP (fun l => l.event_type == EventType.SCREEN_TRANSITION)
    + logs.countP (fun l => l.event_type == EventType.BUTTON_CLICKED)

/-- The wake datetime of `calculate_scores`: the first log whose kind is
wake-time-logged and whose `data` is truthy; if its `data` is a dict with a
truthy `"time"` value, that value is parsed with `_parse_iso`. -/
def wakeDtOf (logs : List EventLog) : Option PyDateTime :=
  match logs.find? (fun l => l.event_type == EventType.WAKE_TIME_LOGGED && l.data.truthy) with
  | none => none
  | some wake_time_log =>
    if wake_time_log.data.isDict then
      match wake_time_log.data.getTime with
      | some t => _parse_iso t
      | none => none
    else none

/-- `first_action` of `calculate_scores`: the timestamp of the first log in
the supplied order (`logs[0].timestamp if logs else None`). -/
def first_actionOf (logs : List EventLog) : Option PyDateTime :=
  logs.head?.map (fun l => l.timestamp)

/-- The `wake_score` banding of `calculate_scores`. -/
def wakeScoreOf (wake_dt : Option PyDateTime) : ℚ :=
  match wake_dt with
  | none => 0
  | some d =>
    if 4 ≤ d.hour ∧ d.hour ≤ 9 then 100
    else if 9 < d.hour ∧ d.hour ≤ 12 then 50
    else 20

/-- The `action_score` banding of `calculate_scores`: the raw subtraction
`first_action - wake_dt` is reached whenever both values exist, and can
raise when their awareness differs. -/
def actionScoreCalc (wake_dt first_action : Option PyDateTime) : Except PyError ℚ :=
  match wake_dt, first_action with
  | some w, some fa =>
    match PyDateTime.pySub fa w with
    | .error e => .error e
    | .ok secs =>
      let delta_h := secs / 3600
      if delta_h ≤ 1 then .ok 100
      else if delta_h ≤ 3 then .ok 50
      else .ok 20
  | _, _ => .ok 0

/-- The `Score` dict returned by `calculate_scores`. -/
structure Score where
  focus : ℤ
  consistency : ℤ
  energy : ℤ
  total : ℤ
  deriving DecidableEq

/-- `calculate_scores`: the rule-based scorer of `ai_service.py`. -/
def calculate_scores (logs : List EventLog) (tasks : List Task) (user : User) :
    Except PyError Score :=
  let completed := completedCount tasks
  let overdue := overdueCount tasks
  let daily_check_in := _extract_daily_check_in logs
  let completion_rate := completion_rate_calc completed overdue
  let streak := 0
  let CONSISTENCY := consistencyScore completed daily_check_in streak completion_rate
  match _calc_session_metrics logs with
  | .error e => .error e
  | .ok (session_count, avg_session_min) =>
    let noise := noiseCount logs
    let FOCUS := focusScore session_count avg_session_min noise
    let wake_dt := wakeDtOf logs
    let first_action := first_actionOf logs
    let wake_score := wakeScoreOf wake_dt
    match actionScoreCalc wake_dt first_action with
    | .error e => .error e
    | .ok action_score =>
      let ENERGY := 60 * (wake_score / 100) + 40 * (action_score / 100)
      let TOTAL := (0.4 : ℚ) * FOCUS + (0.4 : ℚ) * CONSISTENCY + (0.2 : ℚ) * ENERGY
      .ok ⟨pyInt FOCUS, pyInt CONSISTENCY, pyInt ENERGY, pyInt TOTAL⟩

end AIService

/-
Embedding of `src/services/ml_score_service.py` (feature extractor and
learned-score adapter).  Every timestamp this service subtracts or compares
is first passed through `_to_naive_utc`, whose result is always naive, so
its functions are total.
-/
namespace MLService

/-- The `FEATURES` list: the fixed feature order shared with the trained
model. -/
def FEATURES : List String :=
  ["completed_tasks", "overdue_tasks", "streak_days", "completion_rate",
   "daily_check_in", "session_count", "avg_session_minutes", "wake_hour",
   "first_action_delay_hours"]

/-- The loop of `ml_score_service._pair_task_sessions`: as in the rule-based
service, but every timestamp is normalized with `_to_naive_utc` (falling
back to the raw timestamp when that yields `None`), so both sides of the
comparison `e > s` are naive and the wall-clock comparison is total. -/
def pairLoopN (started : String → Option PyDateTime)
    (sessions : List (PyDateTime × PyDateTime)) :
    List EventLog → List (PyDateTime × PyDateTime)
  | [] => sessions
  | l :: rest =>
    match l.task_id with
    | none => pairLoopN started sessions rest
    | some tid =>
      let ts := (_to_naive_utc (some l.timestamp)).getD l.timestamp
      let started1 :=
        if l.event_type == "task_started" then AIService.dictSet started tid ts
        else started
      match (if l.event_type == "task_completed" then started1 tid else none) with
      | some s =>
        if ts.sec > s.sec then
          pairLoopN (AIService.dictPop started1 tid) (sessions ++ [(s, ts)]) rest
        else pairLoopN (AIService.dictPop started1 tid) sessions rest
      | none => pairLoopN started1 sessions rest

/-- `ml_score_service._pair_task_sessions`. -/
def _pair_task_sessions (logs : List EventLog) : List (PyDateTime × PyDateTime) :=
  pairLoopN (fun _ => none) [] logs

/-- `_calc_session_metrics_from_tasks`: `(0, 0.0)` when no paired session
exists, else the count and mean duration in minutes.  The sessions come from
`_pair_task_sessions`, whose endpoints are both naive, so the subtraction is
the wall-clock one. -/
def _calc_session_metrics_from_tasks (logs : List EventLog) : ℕ × ℚ :=
  let paired := _pair_task_sessions logs
  if paired = [] then (0, 0)
  else
    let mins := paired.map (fun se => (se.2.sec - se.1.sec) / 60)
    (mins.length, mins.sum / (mins.length : ℚ))

/-- The fallback applied to `avg_session_minutes` in `_extract_features`:
10.0 when both the count and the average are zero. -/
def avgWithFallback (p : ℕ × ℚ) : ℚ :=
  if p.1 = 0 ∧ p.2 = 0 then 10 else p.2

/-- The wake block of `_extract_features`, producing
`(wake_hour, first_action_delay_hours)` with defaults `(9, 5.0)`: find the
first wake-time-logged log whose `data` is a dict, parse its truthy `"time"`
value, normalize it, and measure the delay to the first log whose kind is
not wake-time-logged, floored at 0.  Both subtraction operands have been
passed through `_to_naive_utc`, so the subtraction is the wall-clock one. -/
def wakeFeatures (logs : List EventLog) : ℤ × ℚ :=
  match logs.find? (fun l => l.event_type == "wake_time_logged" && l.data.isDict) with
  | none => (9, 5)
  | some wake_log =>
    match wake_log.data.getTime with
    | none => (9, 5)
    | some t =>
      match _to_naive_utc (_parse_iso t) with
      | none => (9, 5)
      | some wake_dt =>
        let wake_hour := wake_dt.hour
        match logs.find? (fun x => !(x.event_type == "wake_time_logged")) with
        | none => (wake_hour, 5)
        | some first_action_log =>
          match _to_naive_utc (some first_action_log.timestamp) with
          | none => (wake_hour, 5)
          | some fa =>
            let diff := (fa.sec - wake_dt.sec) / 3600
            (wake_hour, max diff 0)

/-- The feature dict built by `_extract_features` (its nine entries). -/
structure Features where
  completed_tasks : ℤ
  overdue_tasks : ℤ
  streak_days : ℤ
  completion_rate : ℚ
  daily_check_in : ℤ
  session_count : ℤ
  avg_session_minutes : ℚ
  wake_hour : ℤ
  first_action_delay_hours : ℚ
  deriving DecidableEq

/-- `_extract_features`: the nine named features, with the derivations of
`ml_score_service.py`. -/
def _extract_features (logs : List EventLog) (tasks : List Task) (user : User) : Features :=
  { completed_tasks := (completedCount tasks : ℤ)
    overdue_tasks := (overdueCount tasks : ℤ)
    streak_days := 0
    completion_rate := completion_rate_calc (completedCount tasks) (overdueCount tasks)
    daily_check_in := if logs.any (fun l => l.event_type == "daily_check_in") then 1 else 0
    session_count := ((_calc_session_metrics_from_tasks logs).1 : ℤ)
    avg_session_minutes := avgWithFallback (_calc_session_metrics_from_tasks logs)
    wake_hour := (wakeFeatures logs).1
    first_action_delay_hours := (wakeFeatures logs).2 }

/-- Lookup `feats[f]` for a feature name, as a number (ints are cast). -/
def featValue (f : Features) : String → ℚ
  | "completed_tasks" => (f.completed_tasks : ℚ)
  | "overdue_tasks" => (f.overdue_tasks : ℚ)
  | "streak_days" => (f.streak_days : ℚ)
  | "completion_rate" => f.completion_rate
  | "daily_check_in" => (f.daily_check_in : ℚ)
  | "session_count" => (f.session_count : ℚ)
  | "avg_session_minutes" => f.avg_session_minutes
  | "wake_hour" => (f.wake_hour : ℚ)
  | "first_action_delay_hours" => f.first_action_delay_hours
  | _ => 0

/-- A loaded regression model: its `predict` method, mapping a 2D input
matrix (list of feature rows) to a list of predictions. -/
def Model : Type := List (List ℚ) → List ℚ

/-- The process-wide `_MODEL` holder is passed explicitly: `none` models the
artifact being absent at startup. -/
def predict_total_score (model : Option Model) (logs : List EventLog)
    (tasks : List Task) (user : User) : Option ℚ :=
  match model with
  | none => none
  | some m =>
    let feats := _extract_features logs tasks user
    let X := [FEATURES.map (featValue feats)]
    some ((m X).headD 0)

/-- `predict_total_score_debug`: also returns the feature dict; with no
model loaded it returns `(None, feats)`. -/
def predict_total_score_debug (model : Option Model) (logs : List EventLog)
    (tasks : List Task) (user : User) : Option ℚ × Features :=
  let feats := _extract_features logs tasks user
  match model with
  | none => (none, feats)
  | some m =>
    let X := [FEATURES.map (featValue feats)]
    (some ((m X).headD 0), feats)

end MLService

/-
Concrete inputs used by the theorems below.
-/

/-- A wake-time-logged event whose payload `time` is an ISO string with a
trailing `Z` (so it parses to an aware datetime) while the event's own
timestamp is naive (08:00 wall clock; the payload denotes 07:00 UTC). -/
def wakeLogZ : EventLog :=
  { task_id := none
    event_type := "wake_time_logged"
    data := PyJson.dict true (some ⟨true, 7 * 3600, none, true⟩)
    timestamp := ⟨8 * 3600, none⟩ }

/-- A `task_started` event for task `"t1"` at second 0 (naive). -/
def startedLog : EventLog :=
  { task_id := some "t1", event_type := "task_started", data := .pyNone
    timestamp := ⟨0, none⟩ }

/-- A `task_completed` event for task `"t1"` at second 600 (naive). -/
def completedLog : EventLog :=
  { task_id := some "t1", event_type := "task_completed", data := .pyNone
    timestamp := ⟨600, none⟩ }

/-- Two taskless events 20 minutes apart: their idle-gap segmentation is two
zero-duration sessions. -/
def gapLog1 : EventLog :=
  { task_id := none, event_type := "screen_transition", data := .pyNone
    timestamp := ⟨0, none⟩ }

/-- Second event of the 20-minute-gap pair. -/
def gapLog2 : EventLog :=
  { task_id := none, event_type := "screen_transition", data := .pyNone
    timestamp := ⟨1200, none⟩ }

/-- A daily-check-in event (naive timestamp, no payload). -/
def checkInLog : EventLog :=
  { task_id := none, event_type := "daily_check_in", data := .pyNone
    timestamp := ⟨0, none⟩ }

/-- Three completed tasks and one missed task (Scenario A). -/
def scenarioATasks : List Task :=
  [⟨"completed"⟩, ⟨"completed"⟩, ⟨"completed"⟩, ⟨"missed"⟩]

/-- The spec's stub model: echoes the first entry of each input row. -/
def echoFirst : MLService.Model := fun X => X.map (fun row => row.headD 0)

/-- Sorting an event list ascending by timestamp (stable, by the instant the
timestamp denotes), as the spec's ordering requirement reads. -/
def sortLogs (logs : List EventLog) : List EventLog :=
  List.insertionSort
    (fun a b => PyDateTime.key a.timestamp ≤ PyDateTime.key b.timestamp) logs

/-- C1: the claim says `calculate_scores` never raises on documented input
and in particular that the subtraction `first_action - wake_dt` is never
reached with one aware and one naive datetime.  The code violates this: on a
single wake-time-logged event whose payload time ends in `Z` (parsed aware)
and whose own timestamp is naive, the energy computation reaches exactly
that mixed subtraction and the call raises `TypeError`. -/
theorem calculate_scores_mixed_awareness_raises :
    AIService.wakeDtOf [wakeLogZ] = some ⟨25200, some 0⟩ ∧
    AIService.first_actionOf [wakeLogZ] = some ⟨28800, none⟩ ∧
    AIService.actionScoreCalc (some ⟨25200, some 0⟩) (some ⟨28800, none⟩)
        = .error .typeError ∧
    AIService.calculate_scores [wakeLogZ] [] ⟨⟩ = .error .typeError := by
  refine ⟨by decide, by decide, by decide, by decide⟩

/-- C9: Scenario A — three completed tasks, one missed task, one
daily-check-in log: the completion rate is 0.75, the raw consistency value
is `40·1 + 30·1 + 20·0 + 10·0.75 = 77.5`, and the returned score holds its
truncation 77 (total 31, focus and energy 0). -/
theorem scenarioA_consistency_truncated :
    completedCount scenarioATasks = 3 ∧
    overdueCount scenarioATasks = 1 ∧
    completion_rate_calc 3 1 = 3 / 4 ∧
    AIService.consistencyScore 3 1 0 (3 / 4) = 155 / 2 ∧
    AIService.calculate_scores [checkInLog] scenarioATasks ⟨⟩ = .ok ⟨0, 77, 0, 31⟩ := by
  refine ⟨by decide, by decide, by decide, by decide, by decide⟩

/-- C8: with no model loaded, `predict_total_score` returns `None` for every
input (never an error), the debug variant returns `(None, features)`, and
the rule-based path is independent of the model holder (it takes no model at
all). -/
theorem predict_absent_model_returns_none (logs : List EventLog) (tasks : List Task)
    (user : User) :
    MLService.predict_total_score none logs tasks user = none ∧
    MLService.predict_total_score_debug none logs tasks user
      = (none, MLService._extract_features logs tasks user) :=
  ⟨rfl, rfl⟩

/-- C2: the prediction vector lists the nine features in the fixed
`FEATURES` order, so a stub model echoing the first entry of its input row
returns exactly the extractor's `completed_tasks` value — the count of
tasks with status completed. -/
theorem predict_echo_first_returns_completed (logs : List EventLog) (tasks : List Task)
    (user : User) :
    MLService.predict_total_score (some echoFirst) logs tasks user
      = some ((completedCount tasks : ℚ)) := by
  simp [MLService.predict_total_score, echoFirst, MLService.FEATURES, MLService.featValue,
    MLService._extract_features]

/-- C3 counterexample: the claim says paired-session extraction is
insensitive to the supplied order.  Supplying a completion before its start
yields no session, while the same two events sorted ascending by timestamp
yield one — in both services. -/
theorem pair_sessions_input_order_counterexample :
    MLService._pair_task_sessions [completedLog, startedLog]
        ≠ MLService._pair_task_sessions (sortLogs [completedLog, startedLog]) ∧
    MLService._pair_task_sessions [completedLog, startedLog] = [] ∧
    MLService._pair_task_sessions (sortLogs [completedLog, startedLog])
        = [(⟨0, none⟩, ⟨600, none⟩)] ∧
    AIService._pair_task_sessions [completedLog, startedLog] = .ok [] ∧
    AIService._pair_task_sessions (sortLogs [completedLog, startedLog])
        = .ok [(⟨0, none⟩, ⟨600, none⟩)] := by
  refine ⟨by decide, by decide, by decide, by decide, by decide⟩

/-- C3 amended: paired-session extraction follows the supplied order, so it
agrees with extraction over the timestamp-sorted events exactly when the
supplied list is already ascending by timestamp. -/
theorem pair_sessions_sorted_agrees (logs : List EventLog)
    (h : List.Sorted
      (fun a b => PyDateTime.key a.timestamp ≤ PyDateTime.key b.timestamp) logs) :
    MLService._pair_task_sessions logs = MLService._pair_task_sessions (sortLogs logs) ∧
    AIService._pair_task_sessions logs = AIService._pair_task_sessions (sortLogs logs) := by
  rw [sortLogs, List.Sorted.insertionSort_eq h]
  exact ⟨rfl, rfl⟩

/-- Witness for the C3 amended theorem at a concrete ascending event list. -/
theorem pair_sessions_sorted_agrees_witness :
    MLService._pair_task_sessions [startedLog, completedLog]
        = MLService._pair_task_sessions (sortLogs [startedLog, completedLog]) ∧
    AIService._pair_task_sessions [startedLog, completedLog]
        = AIService._pair_task_sessions (sortLogs [startedLog, completedLog]) :=
  pair_sessions_sorted_agrees [startedLog, completedLog] (by decide)

/-- C4 counterexample: the claim says an idle-gap session shorter than one
minute still contributes to the returned count.  Two events 20 minutes apart
produce two zero-duration idle-gap sessions (`k = 2`), both shorter than one
minute, yet `_calc_session_metrics` returns count 0, not 2: short sessions
are dropped from the count as well, not only from the average. -/
theorem session_count_short_sessions_counterexample :
    AIService._pair_task_sessions [gapLog1, gapLog2] = .ok [] ∧
    AIService._activity_sessions_from_timestamps [gapLog1, gapLog2]
        = .ok [(⟨0, none⟩, ⟨0, none⟩), (⟨1200, none⟩, ⟨1200, none⟩)] ∧
    AIService._calc_session_metrics [gapLog1, gapLog2] = .ok (0, 0) ∧
    AIService._calc_session_metrics [gapLog1, gapLog2] ≠ .ok (2, 0) := by
  refine ⟨by decide, by decide, by decide, by decide⟩

/-- C4 amended: when paired extraction is empty, the count returned by
`_calc_session_metrics` is the number of idle-gap sessions whose duration is
at least one minute — sessions shorter than one minute are excluded from
the count as well as from the average. -/
theorem calc_session_metrics_counts_filtered (logs : List EventLog)
    (hp : AIService._pair_task_sessions logs = .ok [])
    (acts : List (PyDateTime × PyDateTime))
    (ha : AIService._activity_sessions_from_timestamps logs = .ok acts)
    (mins : List ℚ) (hm : AIService.sessionMinutes acts = .ok mins) :
    ∃ avg, AIService._calc_session_metrics logs
      = .ok ((mins.filter (fun d => d ≥ 1)).length, avg) := by
  have hstep : AIService._calc_session_metrics logs
      = .ok (AIService.metricsOf (mins.filter (fun d => d ≥ 1))) := by
    unfold AIService._calc_session_metrics
    rw [hp]
    simp only [AIService.sessionMinutes, ha, hm, List.length_nil, Nat.zero_lt_one, if_pos,
      List.nil_append]
  rw [hstep]
  unfold AIService.metricsOf
  by_cases hf : mins.filter (fun d => d ≥ 1) = []
  · exact ⟨0, by rw [if_pos hf, hf]; rfl⟩
  · exact ⟨_, by rw [if_neg hf]⟩

/-- Witness for the C4 amended theorem at the two-events-20-minutes-apart
input. -/
theorem calc_session_metrics_counts_filtered_witness :
    ∃ avg, AIService._calc_session_metrics [gapLog1, gapLog2]
      = .ok ((List.filter (fun d => d ≥ 1) [(0 : ℚ), 0]).length, avg) :=
  calc_session_metrics_counts_filtered [gapLog1, gapLog2] (by decide)
    [(⟨0, none⟩, ⟨0, none⟩), (⟨1200, none⟩, ⟨1200, none⟩)] (by decide)
    [0, 0] (by decide)

/-- Nonnegativity of the shared completion-rate formula. -/
theorem completion_rate_calc_nonneg (c o : ℕ) : 0 ≤ completion_rate_calc c o := by
  unfold completion_rate_calc
  split_ifs with h
  · positivity
  · exact le_refl 0

/-- The shared completion-rate formula never exceeds 1. -/
theorem completion_rate_calc_le_one (c o : ℕ) : completion_rate_calc c o ≤ 1 := by
  unfold completion_rate_calc
  split_ifs with h
  · have hpos : (0 : ℚ) < (c : ℚ) + (o : ℚ) := by
      have : (0 : ℚ) < ((c + o : ℕ) : ℚ) := by exact_mod_cast h
      push_cast at this
      exact this
    rw [div_le_one hpos]
    exact le_add_of_nonneg_right (by positivity)
  · exact zero_le_one

/-- C6: the extractor's `completion_rate` equals
`completed / (completed + overdue)` when the denominator is positive and is
0.0 otherwise (no division by zero occurs); it is always in `[0, 1]` and is
exactly 0 when `completed + overdue = 0`. -/
theorem completion_rate_in_unit_interval (logs : List EventLog) (tasks : List Task)
    (user : User) :
    (0 < completedCount tasks + overdueCount tasks →
      (MLService._extract_features logs tasks user).completion_rate
        = (completedCount tasks : ℚ) / ((completedCount tasks : ℚ) + (overdueCount tasks : ℚ))) ∧
    (completedCount tasks + overdueCount tasks = 0 →
      (MLService._extract_features logs tasks user).completion_rate = 0) ∧
    0 ≤ (MLService._extract_features logs tasks user).completion_rate ∧
    (MLService._extract_features logs tasks user).completion_rate ≤ 1 := by
  have hrate : (MLService._extract_features logs tasks user).completion_rate
      = completion_rate_calc (completedCount tasks) (overdueCount tasks) := rfl
  rw [hrate]
  refine ⟨fun h => ?_, fun h => ?_, completion_rate_calc_nonneg _ _,
    completion_rate_calc_le_one _ _⟩
  · rw [completion_rate_calc, if_pos h]
  · rw [completion_rate_calc, if_neg (by omega)]

/-- Witness for C6 at one completed and one missed task. -/
theorem completion_rate_in_unit_interval_witness :
    (MLService._extract_features [] [⟨"completed"⟩, ⟨"missed"⟩] ⟨⟩).completion_rate
        = ((1 : ℚ) / (1 + 1)) ∧
    0 ≤ (MLService._extract_features [] [⟨"completed"⟩, ⟨"missed"⟩] ⟨⟩).completion_rate ∧
    (MLService._extract_features [] [⟨"completed"⟩, ⟨"missed"⟩] ⟨⟩).completion_rate ≤ 1 := by
  have h := completion_rate_in_unit_interval [] [⟨"completed"⟩, ⟨"missed"⟩] ⟨⟩
  exact ⟨by have := h.1 (by decide); simpa using this, h.2.2.1, h.2.2.2⟩

/-- Truncation of a nonnegative value is nonnegative. -/
theorem pyInt_nonneg {x : ℚ} (hx : 0 ≤ x) : 0 ≤ pyInt x := by
  unfold pyInt
  rw [if_pos hx]
  exact Int.le_floor.mpr (by exact_mod_cast hx)

/-- The consistency formula is nonnegative whenever the completion rate is. -/
theorem consistencyScore_nonneg (c d st : ℕ) {r : ℚ} (hr : 0 ≤ r) :
    0 ≤ AIService.consistencyScore c d st r := by
  unfold AIService.consistencyScore
  have h1 : (0 : ℚ) ≤ min ((c : ℚ) / 3) 1 := le_min (by positivity) zero_le_one
  have h2 : (0 : ℚ) ≤ min ((st : ℚ) / 7) 1 := le_min (by positivity) zero_le_one
  have h3 : (0 : ℚ) ≤ (d : ℚ) := Nat.cast_nonneg d
  linarith

/-- The focus formula is floored at 0. -/
theorem focusScore_nonneg (sc : ℕ) (avg : ℚ) (n : ℕ) :
    0 ≤ AIService.focusScore sc avg n :=
  le_max_right _ _

/-- Every wake-score band is nonnegative. -/
theorem wakeScoreOf_nonneg (wd : Option PyDateTime) : 0 ≤ AIService.wakeScoreOf wd := by
  cases wd with
  | none => simp [AIService.wakeScoreOf]
  | some d =>
    simp only [AIService.wakeScoreOf]
    split_ifs <;> norm_num

/-- Every action-score band the calculation can return is nonnegative. -/
theorem actionScoreCalc_nonneg (wd fa : Option PyDateTime) (a : ℚ)
    (h : AIService.actionScoreCalc wd fa = .ok a) : 0 ≤ a := by
  cases wd with
  | none =>
    simp only [AIService.actionScoreCalc] at h
    injection h with h2
    subst h2
    norm_num
  | some w =>
    cases fa with
    | none =>
      simp only [AIService.actionScoreCalc] at h
      injection h with h2
      subst h2
      norm_num
    | some f =>
      simp only [AIService.actionScoreCalc] at h
      cases hsub : PyDateTime.pySub f w with
      | error e => rw [hsub] at h; simp at h
      | ok secs =>
        rw [hsub] at h
        simp only [] at h
        split_ifs at h <;> (injection h with h2; subst h2; norm_num)

/-- C7: whenever the rule-based scorer returns a `Score`, each of its four
fields (focus, consistency, energy, total) is nonnegative, for every input
— including inputs that drive the noise penalty to its maximum of 15. -/
theorem rule_scores_nonneg (logs : List EventLog) (tasks : List Task) (user : User)
    (s : AIService.Score) (h : AIService.calculate_scores logs tasks user = .ok s) :
    0 ≤ s.focus ∧ 0 ≤ s.consistency ∧ 0 ≤ s.energy ∧ 0 ≤ s.total := by
  simp only [AIService.calculate_scores] at h
  cases hsm : AIService._calc_session_metrics logs with
  | error e => rw [hsm] at h; simp at h
  | ok p =>
    obtain ⟨sc, avg⟩ := p
    rw [hsm] at h
    cases hac : AIService.actionScoreCalc (AIService.wakeDtOf logs)
        (AIService.first_actionOf logs) with
    | error e => rw [hac] at h; simp at h
    | ok a =>
      rw [hac] at h
      simp only [] at h
      injection h with h2
      subst h2
      have hF := focusScore_nonneg sc avg (AIService.noiseCount logs)
      have hC := consistencyScore_nonneg (completedCount tasks)
        (AIService._extract_daily_check_in logs) 0
        (completion_rate_calc_nonneg (completedCount tasks) (overdueCount tasks))
      have hws := wakeScoreOf_nonneg (AIService.wakeDtOf logs)
      have ha0 := actionScoreCalc_nonneg _ _ _ hac
      have hE : (0 : ℚ) ≤ 60 * (AIService.wakeScoreOf (AIService.wakeDtOf logs) / 100)
          + 40 * (a / 100) := by linarith
      refine ⟨pyInt_nonneg hF, pyInt_nonneg hC, pyInt_nonneg hE, pyInt_nonneg ?_⟩
      have h04 : (0.4 : ℚ) = 2 / 5 := by norm_num
      have h02 : (0.2 : ℚ) = 1 / 5 := by norm_num
      rw [h04, h02]
      linarith

/-- Witness for C7 at the empty input, on which the scorer returns all
zeros. -/
theorem rule_scores_nonneg_witness :
    0 ≤ (AIService.Score.mk 0 0 0 0).focus ∧ 0 ≤ (AIService.Score.mk 0 0 0 0).consistency ∧
    0 ≤ (AIService.Score.mk 0 0 0 0).energy ∧ 0 ≤ (AIService.Score.mk 0 0 0 0).total :=
  rule_scores_nonneg [] [] ⟨⟩ ⟨0, 0, 0, 0⟩ (by decide)

/-- Subtraction of naive datetimes is the wall-clock difference. -/
theorem pySub_naive (a b : PyDateTime) (ha : a.tz = none) (hb : b.tz = none) :
    PyDateTime.pySub a b = .ok (a.sec - b.sec) := by
  unfold PyDateTime.pySub
  rw [ha, hb]

/-- When every consecutive gap ahead of the open session is below 15
minutes, the loop of idle-gap segmentation never closes the session: it
returns the single session from `cur_start` to the last timestamp. -/
theorem activityLoop_no_gap (rest : List PyDateTime) :
    ∀ (cur_start cur_end : PyDateTime), cur_end.tz = none →
      (∀ t ∈ rest, t.tz = none) →
      List.Chain (fun a b => (b.sec - a.sec) / 60 < 15) cur_end rest →
      AIService.activityLoop cur_start cur_end rest
        = .ok [(cur_start, (cur_end :: rest).getLast (List.cons_ne_nil _ _))] := by
  induction rest with
  | nil =>
    intro cur_start cur_end hE hrest hchain
    simp [AIService.activityLoop]
  | cons t rest ih =>
    intro cur_start cur_end hE hrest hchain
    cases hchain with
    | cons hrel hchain2 =>
      have ht : t.tz = none := hrest t (by simp)
      have hsub := pySub_naive t cur_end ht hE
      unfold AIService.activityLoop
      rw [hsub]
      simp only []
      have hlt : ¬((t.sec - cur_end.sec) / 60 ≥ 15) := not_le.mpr hrel
      rw [if_neg hlt]
      rw [ih cur_start t ht (fun x hx => hrest x (by simp [hx])) hchain2]
      simp [List.getLast_cons]

/-- The loop of idle-gap segmentation over naive timestamps always returns,
and its session list is never empty: the final open session is emitted. -/
theorem activityLoop_ne_nil (rest : List PyDateTime) :
    ∀ (cur_start cur_end : PyDateTime), cur_end.tz = none →
      (∀ t ∈ rest, t.tz = none) →
      ∃ l, AIService.activityLoop cur_start cur_end rest = .ok l ∧ l ≠ [] := by
  induction rest with
  | nil =>
    intro cur_start cur_end hE hrest
    exact ⟨[(cur_start, cur_end)], rfl, by simp⟩
  | cons t rest ih =>
    intro cur_start cur_end hE hrest
    have ht : t.tz = none := hrest t (by simp)
    have hsub := pySub_naive t cur_end ht hE
    unfold AIService.activityLoop
    rw [hsub]
    simp only []
    by_cases hge : (t.sec - cur_end.sec) / 60 ≥ 15
    · rw [if_pos hge]
      obtain ⟨l, hl, hln⟩ := ih t t ht (fun x hx => hrest x (by simp [hx]))
      exact ⟨(cur_start, cur_end) :: l, by rw [hl], by simp⟩
    · rw [if_neg hge]
      exact ih cur_start t ht (fun x hx => hrest x (by simp [hx]))

/-- Sorting a list of naive timestamps succeeds and is the stable
insertion sort by the denoted instant. -/
theorem pySortTimestamps_all_naive (ts : List PyDateTime) (h : ∀ t ∈ ts, t.tz = none) :
    AIService.pySortTimestamps ts
      = .ok (List.insertionSort (fun a b => PyDateTime.key a ≤ PyDateTime.key b) ts) := by
  unfold AIService.pySortTimestamps
  have hall : ts.all (fun d => d.tz.isNone) = true := by
    rw [List.all_eq_true]
    intro t ht
    rw [h t ht]
    rfl
  rw [hall]
  rw [Bool.true_or]
  rfl

/-- The comparison key of a naive datetime is its wall clock. -/
theorem key_of_naive (d : PyDateTime) (h : d.tz = none) : PyDateTime.key d = d.sec := by
  unfold PyDateTime.key
  rw [h]
  simp

/-- C5: for every non-empty event list whose (naive) timestamps are already
ascending with every consecutive gap strictly below 15 minutes, idle-gap
segmentation returns exactly one session, from the first timestamp to the
last; and for every non-empty event list with naive timestamps, the final
open session is emitted: the session list is never empty. -/
theorem idle_gap_single_session_and_final_emitted :
    (∀ (logs : List EventLog) (t0 : PyDateTime) (ts2 : List PyDateTime),
      logs.map (fun l => l.timestamp) = t0 :: ts2 →
      (∀ l ∈ logs, l.timestamp.tz = none) →
      List.Sorted (fun a b : PyDateTime => a.sec ≤ b.sec) (t0 :: ts2) →
      List.Chain' (fun a b : PyDateTime => (b.sec - a.sec) / 60 < 15) (t0 :: ts2) →
      AIService._activity_sessions_from_timestamps logs
        = .ok [(t0, (t0 :: ts2).getLast (List.cons_ne_nil _ _))]) ∧
    (∀ logs : List EventLog, logs ≠ [] →
      (∀ l ∈ logs, l.timestamp.tz = none) →
      ∃ sessions, AIService._activity_sessions_from_timestamps logs = .ok sessions ∧
        sessions ≠ []) := by
  constructor
  · intro logs t0 ts2 hmap hnv hsorted hchain
    have hts : ∀ t ∈ t0 :: ts2, t.tz = none := by
      rw [← hmap]
      intro t ht
      obtain ⟨l, hl, rfl⟩ := List.mem_map.mp ht
      exact hnv l hl
    have hkeysorted : List.Sorted
        (fun a b : PyDateTime => PyDateTime.key a ≤ PyDateTime.key b) (t0 :: ts2) := by
      refine hsorted.imp_of_mem ?_
      intro a b hma hmb hab
      rw [key_of_naive a (hts a hma), key_of_naive b (hts b hmb)]
      exact hab
    cases logs with
    | nil => simp at hmap
    | cons l0 lrest =>
      show (match AIService.pySortTimestamps ((l0 :: lrest).map (fun l => l.timestamp)) with
        | Except.error e => Except.error e
        | Except.ok [] => Except.ok []
        | Except.ok (t0 :: rest) => AIService.activityLoop t0 t0 rest) = _
      rw [hmap, pySortTimestamps_all_naive _ hts, hkeysorted.insertionSort_eq]
      exact activityLoop_no_gap ts2 t0 t0 (hts t0 (by simp))
        (fun x hx => hts x (by simp [hx])) hchain
  · intro logs hne hnv
    cases logs with
    | nil => exact absurd rfl hne
    | cons l0 lrest =>
      have hts : ∀ t ∈ (l0 :: lrest).map (fun l => l.timestamp), t.tz = none := by
        intro t ht
        obtain ⟨l, hl, rfl⟩ := List.mem_map.mp ht
        exact hnv l hl
      show ∃ sessions,
        (match AIService.pySortTimestamps ((l0 :: lrest).map (fun l => l.timestamp)) with
          | Except.error e => Except.error e
          | Except.ok [] => Except.ok []
          | Except.ok (t0 :: rest) => AIService.activityLoop t0 t0 rest) = Except.ok sessions ∧
        sessions ≠ []
      rw [pySortTimestamps_all_naive _ hts]
      have hsortnv : ∀ t ∈ List.insertionSort
          (fun a b => PyDateTime.key a ≤ PyDateTime.key b)
          ((l0 :: lrest).map (fun l => l.timestamp)), t.tz = none := by
        intro t ht
        exact hts t ((List.perm_insertionSort _ _).mem_iff.mp ht)
      cases hs : List.insertionSort (fun a b => PyDateTime.key a ≤ PyDateTime.key b)
          ((l0 :: lrest).map (fun l => l.timestamp)) with
      | nil =>
        have := congrArg List.length hs
        rw [List.length_insertionSort] at this
        simp at this
      | cons t0 rest =>
        rw [hs] at hsortnv
        exact activityLoop_ne_nil rest t0 t0 (hsortnv t0 (by simp))
          (fun x hx => hsortnv x (by simp [hx]))

/-- Witness for C5: two events five minutes apart form one spanning session,
and a single event yields the one-instant final session. -/
theorem idle_gap_single_session_witness :
    AIService._activity_sessions_from_timestamps
        [⟨none, "task_created", .pyNone, ⟨0, none⟩⟩,
         ⟨none, "task_created", .pyNone, ⟨300, none⟩⟩]
      = .ok [(⟨0, none⟩, ⟨300, none⟩)] ∧
    ∃ sessions,
      AIService._activity_sessions_from_timestamps
          [⟨none, "task_created", .pyNone, ⟨0, none⟩⟩] = .ok sessions ∧
      sessions ≠ [] :=
  ⟨idle_gap_single_session_and_final_emitted.1
      [⟨none, "task_created", .pyNone, ⟨0, none⟩⟩,
       ⟨none, "task_created", .pyNone, ⟨300, none⟩⟩]
      ⟨0, none⟩ [⟨300, none⟩] (by decide) (by decide) (by decide)
      (List.chain'_cons.mpr ⟨by norm_num, List.chain'_singleton _⟩),
    idle_gap_single_session_and_final_emitted.2
      [⟨none, "task_created", .pyNone, ⟨0, none⟩⟩] (by decide) (by decide)⟩

/-- A naive wake-time-logged event whose payload wake time (07:00, no
offset) equals its own naive timestamp. -/
def wakeLogNaive : EventLog :=
  { task_id := none
    event_type := "wake_time_logged"
    data := PyJson.dict true (some ⟨true, 25200, none, false⟩)
    timestamp := ⟨25200, none⟩ }

/-- C10: the rule-based scorer's "first action" is the first supplied log's
own timestamp, without skipping wake-time-logged events: when the wake
event heads the list and its payload wake time is at or after that event's
own timestamp, the delay is nonpositive and the action score is 100.  The
feature extractor of the learned path instead skips wake-time-logged events
when searching for the first action, so on a lone wake event its delay
keeps the 5.0 default. -/
theorem first_action_not_skipped (w : EventLog) (rest : List EventLog)
    (iso : IsoStr) (wd : PyDateTime)
    (hty : w.event_type = "wake_time_logged")
    (hdata : w.data = PyJson.dict true (some iso))
    (hparse : _parse_iso iso = some wd)
    (htz : w.timestamp.tz = none) (hwtz : wd.tz = none)
    (hle : w.timestamp.sec ≤ wd.sec) :
    AIService.first_actionOf (w :: rest) = some w.timestamp ∧
    AIService.wakeDtOf (w :: rest) = some wd ∧
    AIService.actionScoreCalc (AIService.wakeDtOf (w :: rest))
        (AIService.first_actionOf (w :: rest)) = .ok 100 ∧
    (MLService.wakeFeatures [w]).2 = 5 := by
  have hfirst : AIService.first_actionOf (w :: rest) = some w.timestamp := rfl
  have hfind : ((w :: rest).find?
      (fun l => l.event_type == EventType.WAKE_TIME_LOGGED && l.data.truthy)) = some w := by
    apply List.find?_cons_of_pos
    rw [hty, hdata]
    rfl
  have hwdt : AIService.wakeDtOf (w :: rest) = some wd := by
    unfold AIService.wakeDtOf
    rw [hfind]
    simp only [hdata, PyJson.isDict, PyJson.getTime, if_true]
    exact hparse
  have hsub := pySub_naive w.timestamp wd htz hwtz
  have hdelta : (w.timestamp.sec - wd.sec) / 3600 ≤ 1 := by
    have hnp : w.timestamp.sec - wd.sec ≤ 0 := by linarith
    linarith
  have hact : AIService.actionScoreCalc (some wd) (some w.timestamp) = .ok 100 := by
    unfold AIService.actionScoreCalc
    simp only []
    rw [hsub]
    simp only []
    rw [if_pos hdelta]
  have hfind2 : ([w].find?
      (fun l => l.event_type == "wake_time_logged" && l.data.isDict)) = some w := by
    apply List.find?_cons_of_pos
    rw [hty, hdata]
    rfl
  have hnaive : _to_naive_utc (some wd) = some wd := by
    simp only [_to_naive_utc, hwtz]
  have hnone : ([w].find? (fun x => !(x.event_type == "wake_time_logged"))) = none := by
    rw [List.find?_cons_of_neg _ (by simp [hty])]
    rfl
  have hml : (MLService.wakeFeatures [w]).2 = 5 := by
    unfold MLService.wakeFeatures
    rw [hfind2]
    simp only [hdata, PyJson.getTime]
    rw [hparse, hnaive, hnone]
  rw [hwdt, hfirst]
  exact ⟨rfl, rfl, hact, hml⟩

/-- Witness for C10 at the concrete naive wake event. -/
theorem first_action_not_skipped_witness :
    AIService.first_actionOf [wakeLogNaive] = some ⟨25200, none⟩ ∧
    AIService.wakeDtOf [wakeLogNaive] = some ⟨25200, none⟩ ∧
    AIService.actionScoreCalc (AIService.wakeDtOf [wakeLogNaive])
        (AIService.first_actionOf [wakeLogNaive]) = .ok 100 ∧
    (MLService.wakeFeatures [wakeLogNaive]).2 = 5 :=
  first_action_not_skipped wakeLogNaive [] ⟨true, 25200, none, false⟩ ⟨25200, none⟩
    rfl rfl (by decide) rfl rfl (le_refl _)

end WatnowBackend
